import Mathlib

/-!
A shallow embedding of the deep-translator adapter layer
(src/deep_translator/base.py, google.py, reverso.py) and proofs about it.

Python strings are `String`, dicts are association lists, and the network is
an explicit transport parameter.  Each `translate` embedding also returns the
number of network calls it performed (and, for the Reverso adapter, the list
of back-off sleep delays), so that "zero network calls" and retry/back-off
properties are statable.  `validate.py`, `exceptions.py` and `constants.py`
are not part of the given sources; the pieces of them that the claims depend
on are modelled from the specification and marked as such.
-/

deriving instance DecidableEq for Except

namespace DeepTranslator

/-- The kinds of connection-level exceptions the Reverso retry loop catches:
`requests.exceptions.ConnectionError`, `requests.exceptions.Timeout`,
`requests.exceptions.ChunkedEncodingError` (reverso.py line 171). -/
inductive ConnFailure where
  | connectionError
  | timeout
  | chunkedEncodingError
  deriving DecidableEq, Repr

/-- The error taxonomy (exceptions.py is not under src/; the constructors are
named from the imports in the source files and the spec's error-taxonomy
section).  `RequestError` carries the status code when the call site passes
one (reverso.py line 159) and `none` when it does not (google.py line 73).
`ValueErr` and `GenericExc` model Python's built-in `ValueError` and bare
`Exception` raised with a message; `IndexError` models `list[0]` on an empty
list. -/
inductive TranslatorError where
  | NotValidPayload
  | NotValidLength
  | InvalidSourceOrTargetLanguage (lang : String)
  | LanguageNotSupportedException (lang : String)
  | TooManyRequests
  | RequestError (status : Option Nat)
  | TranslationNotFound (text : String)
  | ValueErr (msg : String)
  | GenericExc (msg : String)
  | ConnExc (f : ConnFailure)
  | IndexError
  deriving DecidableEq, Repr

/-- A Python value passed as the `text` argument of `translate`: either a
`str`, or some value of another type (the validator rejects the latter). -/
inductive PyInput where
  | str (s : String)
  | nonStr
  deriving DecidableEq, Repr

/-- The character class Python's `str.strip()` removes (the ASCII whitespace
characters: space, tab, newline, carriage return, vertical tab, form feed). -/
def isPySpace (c : Char) : Bool :=
  c == ' ' || c == '\t' || c == '\n' || c == '\r' || c == Char.ofNat 11 || c == Char.ofNat 12

/-- Python's `text.strip()`: drop leading and trailing whitespace. -/
def pyStrip (s : String) : String :=
  String.mk (((s.data.dropWhile isPySpace).reverse.dropWhile isPySpace).reverse)

/-- Modelled from the spec: `validate.is_empty` (validate.py is not under
src/).  Spec section 4.2: "isEmpty(text) -> bool: true for empty or
whitespace-only text". -/
def is_empty (text : String) : Bool := pyStrip text == ""

/-- Modelled from the spec: `validate.is_input_valid` (validate.py is not
under src/).  Spec section 4.2: invalid "when text is not a non-empty string
or exceeds the adapter-declared character ceiling", and "Violation produces a
distinguishable validation error rather than being silently truncated";
section 7 lists `ValidationError — text empty, wrong type, or exceeds the
backend's character ceiling` in the raised-error taxonomy, and section 8
requires "Text exceeding the backend's character ceiling raises a validation
error before any network call is attempted".  So the rejection is modelled as
a raised validation error — `NotValidPayload` for a wrong-type or empty text,
`NotValidLength` for an over-long text — and a valid input returns `true`. -/
def is_input_valid (text : PyInput) (max_chars : Nat) : Except TranslatorError Bool :=
  match text with
  | .nonStr => .error .NotValidPayload
  | .str s =>
    if s.length = 0 then .error .NotValidPayload
    else if s.length > max_chars then .error .NotValidLength
    else .ok true

/-- Modelled from the spec: `validate.request_failed` (validate.py is not
under src/).  Spec section 6: "recognized failure signals: status 429, other
non-2xx statuses" — a request failed iff its status is not 2xx. -/
def request_failed (status_code : Nat) : Bool :=
  !(200 ≤ status_code && status_code ≤ 299)

/-- A language registry `self._languages`: a Python dict mapping canonical
language name to language code, embedded as an association list with the
dict's insertion order (keys unique). -/
abbrev LanguageRegistry := List (String × String)

/-- `self._languages.values()`. -/
def registryValues (registry : LanguageRegistry) : List String := registry.map Prod.snd

/-- `BaseTranslator._map_language_to_code` (base.py lines 70-89), one language
at a time (the Python generator yields one value per argument; the embedding
resolves a single language).  A language already among the registry's code
values, or equal to `"auto"`, is returned unchanged; a registry key is mapped
to its code; anything else raises `LanguageNotSupportedException`. -/
def mapLanguageToCode (registry : LanguageRegistry) (language : String) :
    Except TranslatorError String :=
  if (registryValues registry).contains language || language == "auto" then .ok language
  else
    match registry.lookup language with
    | some code => .ok code
    | none => .error (.LanguageNotSupportedException language)

/-- The search-engine (Google) adapter's parsed HTTP response.  `status_code`
is the HTTP status; `found` abstracts the BeautifulSoup step
`soup.find("div", {"class": "result-container"})` followed by
`element.get_text(strip=True)` (google.py lines 75-84): it is the stripped
text content of the first element matching the fallback query, or `none` when
no element matches (HTML parsing itself is a thin wrapper around an external
library, out of scope per spec section 1). -/
structure HtmlResponse where
  status_code : Nat
  found : Option String
  deriving DecidableEq, Repr

/-- The state of a `GoogleTranslator` that `translate` reads: the resolved
source and target codes (`self._source`, `self._target`).  The base URL,
URL-parameter dict, element tag/query and proxies only shape the outgoing
request and are folded into the transport parameter of `translate`. -/
structure GoogleTranslator where
  source : String
  target : String
  deriving DecidableEq, Repr

/-- `BaseTranslator._same_source_target` (base.py lines 91-92). -/
def GoogleTranslator.same_source_target (t : GoogleTranslator) : Bool :=
  t.source == t.target

/-- `GoogleTranslator.translate` (google.py lines 50-87).  `transport` is the
response to the single `requests.get` call; the second component of the
result is the number of network calls performed (0 or 1).  The
`.nonStr` inner branch is unreachable because `is_input_valid` has already
rejected every non-string input. -/
def GoogleTranslator.translate (t : GoogleTranslator) (text : PyInput)
    (transport : HtmlResponse) : Except TranslatorError String × Nat :=
  match is_input_valid text 5000 with
  | .error e => (.error e, 0)
  | .ok _ =>
    match text with
    | .nonStr => (.error .NotValidPayload, 0)
    | .str raw =>
      let text := pyStrip raw
      if t.same_source_target || is_empty text then (.ok text, 0)
      else
        let response := transport
        if response.status_code == 429 then (.error .TooManyRequests, 1)
        else if request_failed response.status_code then (.error (.RequestError none), 1)
        else
          match response.found with
          | none => (.error (.TranslationNotFound text), 1)
          | some translated => (.ok translated, 1)

/-- Reverso's fixed allow-list of supported language codes
(reverso.py lines 45-49). -/
def reversoSupportedLanguages : List String :=
  ["ar", "zh", "cs", "nl", "en", "fr", "de", "el", "he",
   "hi", "hu", "it", "ja", "ko", "fa", "pl", "pt", "ro",
   "ru", "sk", "es", "sv", "th", "tr", "uk"]

/-- The dummy registry Reverso passes to the base constructor:
`{lang: lang for lang in self.supported_languages}` (reverso.py line 64). -/
def reversoRegistry : LanguageRegistry :=
  reversoSupportedLanguages.map (fun lang => (lang, lang))

/-- The state of a `ReversoTranslator` that `translate` reads: the source and
target codes.  The session headers and the constant fields of the JSON
payload template (`format`, `options`) only shape the outgoing request and
are folded into the transport parameter of `translate`; the per-call template
mutation of `input`/`from`/`to` (reverso.py lines 138-140) always writes
exactly `text`, `self._source` and `self._target`, so the POST body is a
function of this state and the text. -/
structure ReversoTranslator where
  source : String
  target : String
  deriving DecidableEq, Repr

/-- `ReversoTranslator.validate_language` (reverso.py lines 103-114): raises
`LanguageNotSupportedException` when the language is neither `"auto"` nor in
the allow-list. -/
def ReversoTranslator.validate_language (language : String) :
    Except TranslatorError Unit :=
  if language != "auto" && !(reversoSupportedLanguages.contains language) then
    .error (.LanguageNotSupportedException language)
  else .ok ()

/-- `ReversoTranslator.__init__` (reverso.py lines 30-101): validates source
then target against the allow-list, then runs `BaseTranslator.__init__`
(base.py lines 21-49) with the dummy `{lang: lang}` registry, which rejects
an empty source/target and resolves both through
`_map_language_to_code`, overwriting the codes set before the `super()`
call.  Session/header/payload-template setup performs no validation and no
network call and is omitted (see `ReversoTranslator`). -/
def ReversoTranslator.init (source target : String) :
    Except TranslatorError ReversoTranslator :=
  match ReversoTranslator.validate_language source with
  | .error e => .error e
  | .ok _ =>
    match ReversoTranslator.validate_language target with
    | .error e => .error e
    | .ok _ =>
      if source = "" then .error (.InvalidSourceOrTargetLanguage source)
      else if target = "" then .error (.InvalidSourceOrTargetLanguage target)
      else
        match mapLanguageToCode reversoRegistry source with
        | .error e => .error e
        | .ok s =>
          match mapLanguageToCode reversoRegistry target with
          | .error e => .error e
          | .ok t => .ok { source := s, target := t }

/-- The Reverso adapter's parsed HTTP response: the status code and, for the
JSON body, the value under the `"translation"` key when that key is present
(`response.json()`, reverso.py lines 161-163). -/
structure JsonResponse where
  status_code : Nat
  translation : Option (List String)
  deriving DecidableEq, Repr

/-- What one `self._session.post` call does: either raise a connection-level
exception or deliver a response. -/
inductive AttemptOutcome where
  | fails (f : ConnFailure)
  | responds (r : JsonResponse)
  deriving DecidableEq, Repr

/-- Reverso's `Union[str, List[str]]` return type: a single translation or
the full candidate list. -/
inductive PyResult where
  | s (text : String)
  | lst (texts : List String)
  deriving DecidableEq, Repr

/-- The body of one successful-POST iteration of the Reverso retry loop
(reverso.py lines 155-169): 429 raises `TooManyRequests`, another failing
status raises `RequestError(status_code)`, a body with the `"translation"`
key returns the full list (`return_all`) or its first element — an unguarded
`translations[0]`, raising `IndexError` on an empty list — and a body without
the key raises `TranslationNotFound(text)`.  Every one of these exceptions is
re-raised unchanged by the later `except` clauses (lines 181-191) and is
never retried. -/
def reversoAttempt (text : String) (return_all : Bool) (r : JsonResponse) :
    Except TranslatorError PyResult :=
  if r.status_code == 429 then .error .TooManyRequests
  else if request_failed r.status_code then .error (.RequestError (some r.status_code))
  else
    match r.translation with
    | some translations =>
      if return_all then .ok (.lst translations)
      else
        match translations with
        | [] => .error .IndexError
        | first :: _ => .ok (.s first)
    | none => .error (.TranslationNotFound text)

/-- The `for attempt in range(max_retries)` loop of `ReversoTranslator.translate`
(reverso.py lines 144-191), with `max_retries = 3` and `retry_delay = 1`
initially.  `transport attempt` is the outcome of the POST on that attempt
(the body is fixed across attempts, see `ReversoTranslator`).  `fuel` is the
number of retries still allowed (`max_retries - 1 - attempt`): a
connection-level failure with `attempt < max_retries - 1` sleeps
`retry_delay`, doubles the delay and retries; on the last attempt it
re-raises.  Returns (outcome, number of POST calls, list of sleep delays). -/
def reversoLoop (transport : Nat → AttemptOutcome) (text : String)
    (return_all : Bool) (attempt fuel retry_delay : Nat) :
    Except TranslatorError PyResult × Nat × List Nat :=
  match transport attempt with
  | .responds r => (reversoAttempt text return_all r, 1, [])
  | .fails f =>
    match fuel with
    | 0 => (.error (.ConnExc f), 1, [])
    | fuel' + 1 =>
      let rest := reversoLoop transport text return_all (attempt + 1) fuel' (retry_delay * 2)
      (rest.1, rest.2.1 + 1, retry_delay :: rest.2.2)

/-- `ReversoTranslator.same_source_target`, inherited from
`BaseTranslator._same_source_target` (base.py lines 91-92). -/
def ReversoTranslator.same_source_target (t : ReversoTranslator) : Bool :=
  t.source == t.target

/-- `ReversoTranslator.translate` (reverso.py lines 116-191).  Validation
failures propagate from `is_input_valid` before the `raise ValueError` guard
can observe a `False` return (the modelled validator raises on every invalid
input, making that guard dead code); the same-source-target / empty-text
short-circuit returns the text *unstripped* (reverso.py lines 135-136); then
the retry loop runs with `max_retries = 3`, `retry_delay = 1`.  Returns
(outcome, number of POST calls, list of sleep delays); the `.nonStr` inner
branch is unreachable. -/
def ReversoTranslator.translate (t : ReversoTranslator) (text : PyInput)
    (return_all : Bool) (transport : Nat → AttemptOutcome) :
    Except TranslatorError PyResult × Nat × List Nat :=
  match is_input_valid text 5000 with
  | .error e => (.error e, 0, [])
  | .ok _ =>
    match text with
    | .nonStr => (.error .NotValidPayload, 0, [])
    | .str s =>
      if t.same_source_target || is_empty s then (.ok (.s s), 0, [])
      else reversoLoop transport s return_all 0 2 1

/-- The shared shape of the sequential batch loops
(`BaseTranslator._translate_batch`, base.py lines 214-218, and
`ReversoTranslator.translate_words`, reverso.py lines 203-206): call the
adapter's own translate — abstracted as `f` — once per element in input
order, appending each result; the first raised error propagates, abandoning
the remaining elements.  Returns (outcome, number of translate calls). -/
def translateLoop {α β : Type} (f : α → Except TranslatorError β) :
    List α → Except TranslatorError (List β) × Nat
  | [] => (.ok [], 0)
  | w :: ws =>
    match f w with
    | .error e => (.error e, 1)
    | .ok tw =>
      match translateLoop f ws with
      | (.error e, n) => (.error e, n + 1)
      | (.ok tws, n) => (.ok (tw :: tws), n + 1)

/-- `BaseTranslator._translate_batch` (base.py lines 206-218): an empty list
raises `Exception("Enter your text list that you want to translate")` before
any translate call; otherwise the sequential loop runs. -/
def translate_batch {α β : Type} (f : α → Except TranslatorError β)
    (batch : List α) : Except TranslatorError (List β) × Nat :=
  if batch.isEmpty then
    (.error (.GenericExc "Enter your text list that you want to translate"), 0)
  else translateLoop f batch

/-- `ReversoTranslator.translate_words` (reverso.py lines 193-206): an empty
list raises `ValueError("Input words list cannot be empty.")` before any
translate call; otherwise the sequential loop runs. -/
def translate_words {α β : Type} (f : α → Except TranslatorError β)
    (words : List α) : Except TranslatorError (List β) × Nat :=
  if words.isEmpty then
    (.error (.ValueErr "Input words list cannot be empty."), 0)
  else translateLoop f words

/-- The outcome of `_translate_file`: either the process terminates via
`exit(code)` after printing `msg`, or a value/raised error reaches the
caller. -/
inductive FileOutcome where
  | processExit (code : Nat) (msg : String)
  | result (r : Except TranslatorError String)
  deriving DecidableEq, Repr

/-- `BaseTranslator._translate_file` (base.py lines 178-204).  The filesystem
is abstracted as `fs : path ↦ extracted text`, `none` when `path.exists()` is
false; the extension dispatch (`.docx` via docx2txt, `.pdf` via pypdf, plain
UTF-8 read otherwise, base.py lines 193-202) is a thin wrapper around
external libraries, out of scope per spec section 1, and is folded into
`fs`.  `translate` is the adapter's own translate.  On a nonexistent path the
code prints "Path to the file is wrong!" and calls `exit(1)` — a process
termination, not a raised error.  Returns (outcome, number of translate
calls). -/
def translate_file (fs : String → Option String)
    (translate : String → Except TranslatorError String) (path : String) :
    FileOutcome × Nat :=
  match fs path with
  | none => (.processExit 1 "Path to the file is wrong!", 0)
  | some text => (.result (translate text), 1)

/-! ## Helper lemmas -/

/-- A successful association-list lookup exhibits an entry of the registry. -/
theorem lookup_eq_some_mem {registry : LanguageRegistry} {lang code : String}
    (h : registry.lookup lang = some code) : (lang, code) ∈ registry := by
  induction registry with
  | nil => simp at h
  | cons p rest ih =>
    obtain ⟨k, v⟩ := p
    rw [List.lookup_cons] at h
    cases hak : (lang == k) with
    | false =>
      rw [hak] at h
      exact List.mem_cons_of_mem _ (ih h)
    | true =>
      rw [hak] at h
      obtain rfl : v = code := by simpa using h
      obtain rfl : lang = k := eq_of_beq hak
      exact List.mem_cons_self _ _

/-- Unfolding `ReversoTranslator.translate` past validation and the
short-circuit, down to the retry loop. -/
theorem reverso_translate_eq_loop (t : ReversoTranslator) (s : String)
    (return_all : Bool) (transport : Nat → AttemptOutcome)
    (hv : is_input_valid (.str s) 5000 = .ok true)
    (hst : t.same_source_target = false) (hne : is_empty s = false) :
    t.translate (.str s) return_all transport = reversoLoop transport s return_all 0 2 1 := by
  simp [ReversoTranslator.translate, hv, hst, hne]

/-- The retry loop stops as soon as a POST delivers a response. -/
theorem reversoLoop_responds (transport : Nat → AttemptOutcome) (s : String)
    (return_all : Bool) (attempt fuel delay : Nat) (r : JsonResponse)
    (h : transport attempt = .responds r) :
    reversoLoop transport s return_all attempt fuel delay
      = (reversoAttempt s return_all r, 1, []) := by
  unfold reversoLoop
  rw [h]

/-- A connection-level failure with retries left sleeps the current delay,
doubles it and moves to the next attempt. -/
theorem reversoLoop_fails_step (transport : Nat → AttemptOutcome) (s : String)
    (return_all : Bool) (attempt fuel delay : Nat) (f : ConnFailure)
    (h : transport attempt = .fails f) :
    reversoLoop transport s return_all attempt (fuel + 1) delay
      = ((reversoLoop transport s return_all (attempt + 1) fuel (delay * 2)).1,
         (reversoLoop transport s return_all (attempt + 1) fuel (delay * 2)).2.1 + 1,
         delay :: (reversoLoop transport s return_all (attempt + 1) fuel (delay * 2)).2.2) := by
  conv_lhs => unfold reversoLoop
  rw [h]

/-- A connection-level failure on the last allowed attempt re-raises. -/
theorem reversoLoop_fails_last (transport : Nat → AttemptOutcome) (s : String)
    (return_all : Bool) (attempt delay : Nat) (f : ConnFailure)
    (h : transport attempt = .fails f) :
    reversoLoop transport s return_all attempt 0 delay
      = (.error (.ConnExc f), 1, []) := by
  unfold reversoLoop
  rw [h]

/-- Unfolding `GoogleTranslator.translate` past validation and the
short-circuit, down to the response handling. -/
theorem google_translate_eq_response (t : GoogleTranslator) (s : String)
    (resp : HtmlResponse)
    (hv : is_input_valid (.str s) 5000 = .ok true)
    (hst : t.same_source_target = false) (hne : is_empty (pyStrip s) = false) :
    t.translate (.str s) resp
      = (if resp.status_code == 429 then (.error .TooManyRequests, 1)
         else if request_failed resp.status_code then (.error (.RequestError none), 1)
         else
           match resp.found with
           | none => (.error (.TranslationNotFound (pyStrip s)), 1)
           | some translated => (.ok translated, 1)) := by
  simp [GoogleTranslator.translate, hv, hst, hne]

/-! ## Claim theorems -/

/-- C1 counterexample: with source = target = "en" and the non-empty input
" hi ", the Reverso adapter's same-source-target short-circuit returns the
input *unstripped* (" hi "), which differs from the trimmed input "hi" — so
`translate` does not return `text.strip()` for every adapter. -/
theorem C1_counterexample :
    ReversoTranslator.translate ⟨"en", "en"⟩ (.str " hi ") false
        (fun _ => .fails .timeout) = (.ok (.s " hi "), 0, [])
    ∧ pyStrip " hi " ≠ " hi " := by
  constructor
  · rfl
  · decide

/-- C1 (amended): for every valid non-empty input text (a string of at most
5000 characters), when source equals target both adapters return without any
network call — the search-engine adapter returns the trimmed text, and the
dictionary adapter returns the text unchanged (not trimmed). -/
theorem C1_same_source_target_identity (lang s : String) (resp : HtmlResponse)
    (transport : Nat → AttemptOutcome) (return_all : Bool)
    (hne : s.length ≠ 0) (hlen : s.length ≤ 5000) :
    GoogleTranslator.translate ⟨lang, lang⟩ (.str s) resp = (.ok (pyStrip s), 0)
    ∧ ReversoTranslator.translate ⟨lang, lang⟩ (.str s) return_all transport
        = (.ok (.s s), 0, []) := by
  have hv : is_input_valid (.str s) 5000 = .ok true := by
    simp [is_input_valid, hne, Nat.not_lt.mpr hlen]
  constructor
  · simp [GoogleTranslator.translate, hv, GoogleTranslator.same_source_target]
  · simp [ReversoTranslator.translate, hv, ReversoTranslator.same_source_target]

/-- C1 witness: concrete instance of the amended claim at text "hi". -/
theorem C1_same_source_target_identity_witness :
    GoogleTranslator.translate ⟨"en", "en"⟩ (.str "hi") ⟨200, none⟩ = (.ok "hi", 0)
    ∧ ReversoTranslator.translate ⟨"en", "en"⟩ (.str "hi") false
        (fun _ => .fails .timeout) = (.ok (.s "hi"), 0, []) := by
  have h := C1_same_source_target_identity "en" "hi" ⟨200, none⟩
    (fun _ => .fails .timeout) false (by decide) (by decide)
  have hs : pyStrip "hi" = "hi" := by decide
  rw [hs] at h
  exact h

/-- C2: for both adapters, an input that is not a non-empty string, or whose
length exceeds the 5000-character ceiling, produces a validation error
(`NotValidPayload` or `NotValidLength` — distinguishable from every other
error of the taxonomy) with zero network calls; the text is never silently
truncated, since no translation result is produced at all. -/
theorem C2_invalid_input_rejected (g : GoogleTranslator) (t : ReversoTranslator)
    (text : PyInput) (resp : HtmlResponse) (transport : Nat → AttemptOutcome)
    (return_all : Bool)
    (hinvalid : ∀ s : String, text = .str s → s.length = 0 ∨ s.length > 5000) :
    ∃ e, (e = TranslatorError.NotValidPayload ∨ e = TranslatorError.NotValidLength)
      ∧ g.translate text resp = (.error e, 0)
      ∧ t.translate text return_all transport = (.error e, 0, []) := by
  cases text with
  | nonStr => exact ⟨.NotValidPayload, Or.inl rfl, rfl, rfl⟩
  | str s =>
    rcases hinvalid s rfl with h | h
    · refine ⟨.NotValidPayload, Or.inl rfl, ?_, ?_⟩ <;>
        simp [GoogleTranslator.translate, ReversoTranslator.translate, is_input_valid, h]
    · have h0 : s.length ≠ 0 := by omega
      refine ⟨.NotValidLength, Or.inr rfl, ?_, ?_⟩ <;>
        simp [GoogleTranslator.translate, ReversoTranslator.translate, is_input_valid, h, h0]

/-- C2 witness: a 5001-character text is rejected by both adapters with a
validation error and zero network calls. -/
theorem C2_invalid_input_rejected_witness :
    ∃ e, (e = TranslatorError.NotValidPayload ∨ e = TranslatorError.NotValidLength)
      ∧ GoogleTranslator.translate ⟨"auto", "en"⟩
          (.str (String.mk (List.replicate 5001 'a'))) ⟨200, none⟩ = (.error e, 0)
      ∧ ReversoTranslator.translate ⟨"en", "fr"⟩
          (.str (String.mk (List.replicate 5001 'a'))) false
          (fun _ => .fails .timeout) = (.error e, 0, []) := by
  refine C2_invalid_input_rejected _ _ _ _ _ _ ?_
  intro s h
  injection h with h2
  subst h2
  right
  have hlen : (String.mk (List.replicate 5001 'a')).length = 5001 := by
    show (List.replicate 5001 'a').length = 5001
    rw [List.length_replicate]
  omega

/-- C9: on a nonexistent path, file translation prints a message and
terminates the process with exit status 1 — a `processExit` outcome, never a
raised error result delivered to the caller — and performs zero translate
calls. -/
theorem C9_missing_file_exits (fs : String → Option String)
    (translate : String → Except TranslatorError String) (path : String)
    (h : fs path = none) :
    translate_file fs translate path = (.processExit 1 "Path to the file is wrong!", 0)
    ∧ ∀ r n, translate_file fs translate path ≠ (.result r, n) := by
  have he : translate_file fs translate path
      = (.processExit 1 "Path to the file is wrong!", 0) := by
    simp [translate_file, h]
  refine ⟨he, fun r n hco => ?_⟩
  rw [he] at hco
  simp at hco

/-- C9 witness: concrete instance on an empty filesystem. -/
theorem C9_missing_file_exits_witness :
    translate_file (fun _ => none) (fun s => .ok s) "missing.txt"
      = (.processExit 1 "Path to the file is wrong!", 0)
    ∧ ∀ r n, translate_file (fun _ => none) (fun s => .ok s) "missing.txt"
        ≠ (.result r, n) :=
  C9_missing_file_exits _ _ _ rfl

/-- C10: with `return_all = false`, a successful response whose JSON body has
the `"translation"` key bound to an empty list makes the dictionary adapter
raise `IndexError` from the unguarded `translations[0]` — not
`TranslationNotFound`. -/
theorem C10_empty_candidate_list (t : ReversoTranslator) (s : String)
    (transport : Nat → AttemptOutcome)
    (hv : is_input_valid (.str s) 5000 = .ok true)
    (hst : t.same_source_target = false) (hne : is_empty s = false)
    (h0 : transport 0 = .responds ⟨200, some []⟩) :
    t.translate (.str s) false transport = (.error .IndexError, 1, [])
    ∧ ∀ msg, t.translate (.str s) false transport
        ≠ (.error (.TranslationNotFound msg), 1, []) := by
  have ha : reversoAttempt s false ⟨200, some []⟩ = .error .IndexError := rfl
  have he : t.translate (.str s) false transport = (.error .IndexError, 1, []) := by
    rw [reverso_translate_eq_loop t s false transport hv hst hne,
      reversoLoop_responds transport s false 0 2 1 _ h0, ha]
  refine ⟨he, fun msg hco => ?_⟩
  rw [he] at hco
  simp at hco

/-- C10 witness: concrete instance at text "hi", source "en", target "fr". -/
theorem C10_empty_candidate_list_witness :
    ReversoTranslator.translate ⟨"en", "fr"⟩ (.str "hi") false
        (fun _ => .responds ⟨200, some []⟩) = (.error .IndexError, 1, [])
    ∧ ∀ msg, ReversoTranslator.translate ⟨"en", "fr"⟩ (.str "hi") false
        (fun _ => .responds ⟨200, some []⟩)
        ≠ (.error (.TranslationNotFound msg), 1, []) :=
  C10_empty_candidate_list ⟨"en", "fr"⟩ "hi" (fun _ => .responds ⟨200, some []⟩)
    (by decide) (by decide) (by decide) rfl

/-- A non-failing HTTP status is not 429 (`request_failed 429 = true`). -/
theorem beq_429_eq_false_of_request_ok {n : Nat} (h : request_failed n = false) :
    (n == 429) = false := by
  cases hn : (n == 429) with
  | false => rfl
  | true =>
    exfalso
    obtain rfl : n = 429 := eq_of_beq hn
    simp [request_failed] at h

/-- The sequential loop on a list whose every element translates
successfully: one call per element, results in input order. -/
theorem translateLoop_all_ok {α β : Type} (f : α → Except TranslatorError β)
    (g : α → β) (l : List α) (h : ∀ u ∈ l, f u = .ok (g u)) :
    translateLoop f l = (.ok (l.map g), l.length) := by
  induction l with
  | nil => rfl
  | cons w ws ih =>
    have hw := h w (List.mem_cons_self _ _)
    have hws := ih (fun u hu => h u (List.mem_cons_of_mem _ hu))
    simp [translateLoop, hw, hws]

/-- The sequential loop stops at the first failing element: the error
propagates after exactly one call per preceding element plus the failing
one. -/
theorem translateLoop_first_error {α β : Type} (f : α → Except TranslatorError β)
    (pre : List α) (w : α) (post : List α) (e : TranslatorError)
    (hpre : ∀ u ∈ pre, ∃ v, f u = .ok v) (hw : f w = .error e) :
    translateLoop f (pre ++ w :: post) = (.error e, pre.length + 1) := by
  induction pre with
  | nil => simp [translateLoop, hw]
  | cons u us ih =>
    obtain ⟨v, hv⟩ := hpre u (List.mem_cons_self _ _)
    have hus := ih (fun u' hu' => hpre u' (List.mem_cons_of_mem _ hu'))
    simp [translateLoop, hv, hus]

/-- C3: language resolution over any registry: `"auto"` and strings already
among the registry's code values are returned unchanged; a registry key is
mapped to its code (key-lookup is shadowed by the value check, so this is
stated for registries where a key that is also a code value — as in Reverso's
`{lang: lang}` registry — is bound to itself, and where `"auto"`, if a key,
is bound to `"auto"`); every other string raises
`LanguageNotSupportedException`; and resolution is idempotent. -/
theorem C3_map_language_to_code (registry : LanguageRegistry)
    (lang res code : String) :
    (mapLanguageToCode registry "auto" = .ok "auto")
    ∧ ((registryValues registry).contains lang = true →
        mapLanguageToCode registry lang = .ok lang)
    ∧ (registry.lookup lang = some code →
        ((registryValues registry).contains lang = true → code = lang) →
        (lang = "auto" → code = "auto") →
        mapLanguageToCode registry lang = .ok code)
    ∧ (lang ≠ "auto" → (registryValues registry).contains lang = false →
        registry.lookup lang = none →
        mapLanguageToCode registry lang
          = .error (.LanguageNotSupportedException lang))
    ∧ (mapLanguageToCode registry lang = .ok res →
        mapLanguageToCode registry res = .ok res) := by
  refine ⟨?_, ?_, ?_, ?_, ?_⟩
  · rw [mapLanguageToCode, if_pos (by simp)]
  · intro h
    rw [mapLanguageToCode, if_pos (by rw [h]; rfl)]
  · intro hl hcv hauto
    by_cases hc : (registryValues registry).contains lang = true
    · rw [hcv hc, mapLanguageToCode, if_pos (by rw [hc]; rfl)]
    · by_cases ha : lang = "auto"
      · subst ha
        rw [hauto rfl, mapLanguageToCode, if_pos (by simp)]
      · have hcf : (registryValues registry).contains lang = false :=
          Bool.eq_false_iff.mpr hc
        have hbeq : (lang == "auto") = false := beq_eq_false_iff_ne.mpr ha
        rw [mapLanguageToCode, if_neg (by rw [hcf, hbeq]; simp), hl]
  · intro ha hc hl
    have hbeq : (lang == "auto") = false := beq_eq_false_iff_ne.mpr ha
    rw [mapLanguageToCode, if_neg (by rw [hc, hbeq]; simp), hl]
  · intro h
    rw [mapLanguageToCode] at h
    by_cases hcond : ((registryValues registry).contains lang || lang == "auto") = true
    · rw [if_pos hcond] at h
      obtain rfl : lang = res := by simpa using h
      rw [mapLanguageToCode, if_pos hcond]
    · rw [if_neg hcond] at h
      cases hl : registry.lookup lang with
      | none => rw [hl] at h; simp at h
      | some c =>
        rw [hl] at h
        have hcr : c = res := by simpa using h
        subst hcr
        have hmem : c ∈ registryValues registry :=
          List.mem_map_of_mem Prod.snd (lookup_eq_some_mem hl)
        have hcres : (registryValues registry).contains c = true := by
          simpa using hmem
        rw [mapLanguageToCode, if_pos (by rw [hcres]; rfl)]

/-- C3 witness: Reverso's registry resolves a known code and "auto"
unchanged, maps the key "fr" to its code via the key clause, rejects
"klingon", and resolving the resolved "fr" again is the identity. -/
theorem C3_map_language_to_code_witness :
    mapLanguageToCode reversoRegistry "auto" = .ok "auto"
    ∧ mapLanguageToCode reversoRegistry "fr" = .ok "fr"
    ∧ mapLanguageToCode reversoRegistry "klingon"
        = .error (.LanguageNotSupportedException "klingon") := by
  refine ⟨(C3_map_language_to_code reversoRegistry "" "" "").1, ?_, ?_⟩
  · exact (C3_map_language_to_code reversoRegistry "fr" "" "fr").2.2.1
      (by decide) (fun _ => rfl) (by decide)
  · exact (C3_map_language_to_code reversoRegistry "klingon" "" "").2.2.2.1
      (by decide) (by decide) (by decide)

/-- C4: for the dictionary adapter, connection-level failures are retried up
to 3 attempts total, with back-off sleeps of 1 then 2 time units between
attempts, the last connection exception propagating after the third failure;
a delivered HTTP response — error statuses such as 429 included — ends the
loop on that attempt with no retry. -/
theorem C4_retry_policy (t : ReversoTranslator) (s : String) (return_all : Bool)
    (transport : Nat → AttemptOutcome) (f0 f1 f2 : ConnFailure)
    (resp : JsonResponse) (x : String) (xs : List String)
    (hv : is_input_valid (.str s) 5000 = .ok true)
    (hst : t.same_source_target = false) (hne : is_empty s = false) :
    ((transport 0 = .fails f0 → transport 1 = .fails f1 → transport 2 = .fails f2 →
        t.translate (.str s) return_all transport
          = (.error (.ConnExc f2), 3, [1, 2]))
    ∧ (transport 0 = .fails f0 → transport 1 = .fails f1 →
        transport 2 = .responds ⟨200, some (x :: xs)⟩ →
        t.translate (.str s) false transport = (.ok (.s x), 3, [1, 2]))
    ∧ (transport 0 = .responds resp →
        t.translate (.str s) return_all transport
          = (reversoAttempt s return_all resp, 1, []))
    ∧ (transport 0 = .responds resp → resp.status_code = 429 →
        t.translate (.str s) return_all transport
          = (.error .TooManyRequests, 1, []))) := by
  refine ⟨?_, ?_, ?_, ?_⟩
  · intro h0 h1 h2
    rw [reverso_translate_eq_loop t s return_all transport hv hst hne]
    simp [reversoLoop, h0, h1, h2]
  · intro h0 h1 h2
    rw [reverso_translate_eq_loop t s false transport hv hst hne]
    simp [reversoLoop, h0, h1, h2, reversoAttempt, request_failed]
  · intro h0
    rw [reverso_translate_eq_loop t s return_all transport hv hst hne,
      reversoLoop_responds transport s return_all 0 2 1 resp h0]
  · intro h0 h429
    rw [reverso_translate_eq_loop t s return_all transport hv hst hne,
      reversoLoop_responds transport s return_all 0 2 1 resp h0]
    simp [reversoAttempt, h429]

/-- C4 witness: two connection errors then a success: the result is the
successful translation, the transport ran exactly 3 times, with sleeps of 1
and 2 between the attempts; and a straight 429 response is raised after a
single call. -/
theorem C4_retry_policy_witness :
    ReversoTranslator.translate ⟨"en", "fr"⟩ (.str "hi") false
        (fun n => if n < 2 then .fails .connectionError
                  else .responds ⟨200, some ["Hallo"]⟩)
      = (.ok (.s "Hallo"), 3, [1, 2])
    ∧ ReversoTranslator.translate ⟨"en", "fr"⟩ (.str "hi") false
        (fun _ => .responds ⟨429, none⟩)
      = (.error .TooManyRequests, 1, []) := by
  constructor
  · exact (C4_retry_policy ⟨"en", "fr"⟩ "hi" false
      (fun n => if n < 2 then .fails .connectionError
                else .responds ⟨200, some ["Hallo"]⟩)
      .connectionError .connectionError .connectionError ⟨200, some ["Hallo"]⟩
      "Hallo" [] (by decide) (by decide) (by decide)).2.1 rfl rfl rfl
  · exact (C4_retry_policy ⟨"en", "fr"⟩ "hi" false
      (fun _ => .responds ⟨429, none⟩)
      .connectionError .connectionError .connectionError ⟨429, none⟩
      "" [] (by decide) (by decide) (by decide)).2.2.2 rfl rfl

/-- C5: both batch helpers reject an empty input list with an error raised
before any translate call; on a non-empty list they call translate once per
element, sequentially, in input order, returning a same-length result list
when every call succeeds; and the first failing element's error propagates
after exactly the calls up to and including it, with no partial result. -/
theorem C5_batch_semantics (f : String → Except TranslatorError String)
    (g : String → String) (batch pre post : List String) (w : String)
    (e : TranslatorError) :
    (translate_batch f ([] : List String)
        = (.error (.GenericExc "Enter your text list that you want to translate"), 0)
      ∧ translate_words f ([] : List String)
        = (.error (.ValueErr "Input words list cannot be empty."), 0))
    ∧ (batch ≠ [] → (∀ u ∈ batch, f u = .ok (g u)) →
        translate_batch f batch = (.ok (batch.map g), batch.length)
        ∧ translate_words f batch = (.ok (batch.map g), batch.length))
    ∧ ((∀ u ∈ pre, ∃ v, f u = .ok v) → f w = .error e →
        translate_batch f (pre ++ w :: post) = (.error e, pre.length + 1)
        ∧ translate_words f (pre ++ w :: post) = (.error e, pre.length + 1)) := by
  refine ⟨⟨rfl, rfl⟩, ?_, ?_⟩
  · intro hne hok
    have hloop := translateLoop_all_ok f g batch hok
    cases batch with
    | nil => exact absurd rfl hne
    | cons b bs =>
      exact ⟨by simpa [translate_batch] using hloop,
             by simpa [translate_words] using hloop⟩
  · intro hpre hw
    have hloop := translateLoop_first_error f pre w post e hpre hw
    have hne : (pre ++ w :: post).isEmpty = false := by cases pre <;> rfl
    exact ⟨by simpa [translate_batch, hne] using hloop,
           by simpa [translate_words, hne] using hloop⟩

/-- C5 witness: the empty list is rejected; ["a", "b"] yields a 2-element
result in order with 2 calls; and a failing second element propagates its
error after 2 calls. -/
theorem C5_batch_semantics_witness :
    translate_batch (fun s => Except.ok (s ++ "!")) ([] : List String)
      = (.error (.GenericExc "Enter your text list that you want to translate"), 0)
    ∧ translate_batch (fun s => Except.ok (s ++ "!")) ["a", "b"]
      = (.ok (["a", "b"].map (fun s => s ++ "!")), 2)
    ∧ translate_words (fun s => Except.ok (s ++ "!")) ["a", "b"]
      = (.ok (["a", "b"].map (fun s => s ++ "!")), 2)
    ∧ translate_batch
        (fun s => if s = "b" then .error .TooManyRequests else .ok (s ++ "!"))
        (["a"] ++ "b" :: ["c"]) = (.error .TooManyRequests, 2) := by
  refine ⟨(C5_batch_semantics (fun s => Except.ok (s ++ "!"))
            (fun s => s ++ "!") [] [] [] "" .TooManyRequests).1.1, ?_, ?_, ?_⟩
  · exact ((C5_batch_semantics (fun s => Except.ok (s ++ "!")) (fun s => s ++ "!")
      ["a", "b"] [] [] "" .TooManyRequests).2.1 (by decide) (fun u _ => rfl)).1
  · exact ((C5_batch_semantics (fun s => Except.ok (s ++ "!")) (fun s => s ++ "!")
      ["a", "b"] [] [] "" .TooManyRequests).2.1 (by decide) (fun u _ => rfl)).2
  · exact ((C5_batch_semantics
      (fun s => if s = "b" then .error .TooManyRequests else .ok (s ++ "!"))
      (fun s => s ++ "!") [] ["a"] ["c"] "b" .TooManyRequests).2.2
      (fun u hu => ⟨u ++ "!", by
        obtain rfl : u = "a" := by simpa using hu
        rfl⟩) rfl).1

/-- C6: for the dictionary adapter, a successful (non-429, 2xx) response
whose JSON body has the `"translation"` key returns the full ordered
candidate list when `return_all` is true and the list's first element when it
is false; a body without the key raises `TranslationNotFound`. -/
theorem C6_success_parse (t : ReversoTranslator) (s : String)
    (transport : Nat → AttemptOutcome) (resp : JsonResponse)
    (l : List String) (x : String) (xs : List String)
    (hv : is_input_valid (.str s) 5000 = .ok true)
    (hst : t.same_source_target = false) (hne : is_empty s = false)
    (h0 : transport 0 = .responds resp)
    (hok : request_failed resp.status_code = false) :
    (resp.translation = some l →
        t.translate (.str s) true transport = (.ok (.lst l), 1, []))
    ∧ (resp.translation = some (x :: xs) →
        t.translate (.str s) false transport = (.ok (.s x), 1, []))
    ∧ (resp.translation = none → ∀ return_all,
        t.translate (.str s) return_all transport
          = (.error (.TranslationNotFound s), 1, [])) := by
  have h429 := beq_429_eq_false_of_request_ok hok
  refine ⟨?_, ?_, ?_⟩
  · intro htr
    rw [reverso_translate_eq_loop t s true transport hv hst hne,
      reversoLoop_responds transport s true 0 2 1 resp h0]
    simp [reversoAttempt, h429, hok, htr]
  · intro htr
    rw [reverso_translate_eq_loop t s false transport hv hst hne,
      reversoLoop_responds transport s false 0 2 1 resp h0]
    simp [reversoAttempt, h429, hok, htr]
  · intro htr return_all
    rw [reverso_translate_eq_loop t s return_all transport hv hst hne,
      reversoLoop_responds transport s return_all 0 2 1 resp h0]
    simp [reversoAttempt, h429, hok, htr]

/-- C6 witness: the spec's example — body {"translation": ["Hallo",
"Hallo du"]} yields "Hallo" with return_all false and the full list with
return_all true; a body without the key raises TranslationNotFound. -/
theorem C6_success_parse_witness :
    ReversoTranslator.translate ⟨"en", "de"⟩ (.str "hello") false
        (fun _ => .responds ⟨200, some ["Hallo", "Hallo du"]⟩)
      = (.ok (.s "Hallo"), 1, [])
    ∧ ReversoTranslator.translate ⟨"en", "de"⟩ (.str "hello") true
        (fun _ => .responds ⟨200, some ["Hallo", "Hallo du"]⟩)
      = (.ok (.lst ["Hallo", "Hallo du"]), 1, [])
    ∧ ReversoTranslator.translate ⟨"en", "de"⟩ (.str "hello") false
        (fun _ => .responds ⟨200, none⟩)
      = (.error (.TranslationNotFound "hello"), 1, []) := by
  refine ⟨?_, ?_, ?_⟩
  · exact (C6_success_parse ⟨"en", "de"⟩ "hello"
      (fun _ => .responds ⟨200, some ["Hallo", "Hallo du"]⟩)
      ⟨200, some ["Hallo", "Hallo du"]⟩ ["Hallo", "Hallo du"] "Hallo" ["Hallo du"]
      (by decide) (by decide) (by decide) rfl (by decide)).2.1 rfl
  · exact (C6_success_parse ⟨"en", "de"⟩ "hello"
      (fun _ => .responds ⟨200, some ["Hallo", "Hallo du"]⟩)
      ⟨200, some ["Hallo", "Hallo du"]⟩ ["Hallo", "Hallo du"] "Hallo" ["Hallo du"]
      (by decide) (by decide) (by decide) rfl (by decide)).1 rfl
  · exact ((C6_success_parse ⟨"en", "de"⟩ "hello"
      (fun _ => .responds ⟨200, none⟩) ⟨200, none⟩ [] "" []
      (by decide) (by decide) (by decide) rfl (by decide)).2.2 rfl) false

/-- C7: for the search-engine adapter on valid, non-short-circuited input: a
429 response raises `TooManyRequests`; any other non-2xx status raises
`RequestError`; a successful response whose HTML has no element matching the
fallback query raises `TranslationNotFound`; otherwise the matching element's
stripped text is returned. -/
theorem C7_google_response_handling (t : GoogleTranslator) (s : String)
    (resp : HtmlResponse) (translated : String)
    (hv : is_input_valid (.str s) 5000 = .ok true)
    (hst : t.same_source_target = false) (hne : is_empty (pyStrip s) = false) :
    (resp.status_code = 429 →
        t.translate (.str s) resp = (.error .TooManyRequests, 1))
    ∧ (request_failed resp.status_code = true → resp.status_code ≠ 429 →
        t.translate (.str s) resp = (.error (.RequestError none), 1))
    ∧ (request_failed resp.status_code = false → resp.found = none →
        t.translate (.str s) resp = (.error (.TranslationNotFound (pyStrip s)), 1))
    ∧ (request_failed resp.status_code = false → resp.found = some translated →
        t.translate (.str s) resp = (.ok translated, 1)) := by
  rw [google_translate_eq_response t s resp hv hst hne]
  refine ⟨?_, ?_, ?_, ?_⟩
  · intro h429
    rw [if_pos (by rw [h429]; rfl)]
  · intro hfail hn429
    rw [if_neg (by rw [beq_eq_false_iff_ne.mpr hn429]; simp), if_pos hfail]
  · intro hok hfound
    rw [if_neg (by rw [beq_429_eq_false_of_request_ok hok]; simp),
      if_neg (by rw [hok]; simp), hfound]
  · intro hok hfound
    rw [if_neg (by rw [beq_429_eq_false_of_request_ok hok]; simp),
      if_neg (by rw [hok]; simp), hfound]

/-- C7 witness: concrete 429, 503, no-match and success responses. -/
theorem C7_google_response_handling_witness :
    GoogleTranslator.translate ⟨"en", "fr"⟩ (.str "hi") ⟨429, none⟩
      = (.error .TooManyRequests, 1)
    ∧ GoogleTranslator.translate ⟨"en", "fr"⟩ (.str "hi") ⟨503, none⟩
      = (.error (.RequestError none), 1)
    ∧ GoogleTranslator.translate ⟨"en", "fr"⟩ (.str "hi") ⟨200, none⟩
      = (.error (.TranslationNotFound (pyStrip "hi")), 1)
    ∧ GoogleTranslator.translate ⟨"en", "fr"⟩ (.str "hi") ⟨200, some "salut"⟩
      = (.ok "salut", 1) := by
  refine ⟨?_, ?_, ?_, ?_⟩
  · exact (C7_google_response_handling ⟨"en", "fr"⟩ "hi" ⟨429, none⟩ ""
      (by decide) (by decide) (by decide)).1 rfl
  · exact (C7_google_response_handling ⟨"en", "fr"⟩ "hi" ⟨503, none⟩ ""
      (by decide) (by decide) (by decide)).2.1 (by decide) (by decide)
  · exact (C7_google_response_handling ⟨"en", "fr"⟩ "hi" ⟨200, none⟩ ""
      (by decide) (by decide) (by decide)).2.2.1 (by decide) rfl
  · exact (C7_google_response_handling ⟨"en", "fr"⟩ "hi" ⟨200, some "salut"⟩
      "salut" (by decide) (by decide) (by decide)).2.2.2 (by decide) rfl

/-- C8 counterexample: the string "auto" is not in Reverso's fixed allow-list
of ISO two-letter codes, yet constructing the adapter with source "auto"
succeeds — `validate_language` exempts "auto" — so not every string outside
the allow-list is rejected at construction. -/
theorem C8_counterexample :
    reversoSupportedLanguages.contains "auto" = false
    ∧ ReversoTranslator.init "auto" "en" = .ok ⟨"auto", "en"⟩ := by
  constructor
  · decide
  · rfl

/-- C8 (amended): constructing the dictionary adapter with any source or
target string that is neither `"auto"` nor in the fixed allow-list raises
`LanguageNotSupportedException` immediately at construction time (the
constructor itself returns the error; no translate step is involved), for
the source and for the target argument. -/
theorem C8_eager_allowlist_validation (source target : String) :
    (source ≠ "auto" → reversoSupportedLanguages.contains source = false →
        ReversoTranslator.init source target
          = .error (.LanguageNotSupportedException source))
    ∧ ((source = "auto" ∨ reversoSupportedLanguages.contains source = true) →
        target ≠ "auto" → reversoSupportedLanguages.contains target = false →
        ReversoTranslator.init source target
          = .error (.LanguageNotSupportedException target)) := by
  constructor
  · intro hs hc
    have hcond : ((source != "auto") && !reversoSupportedLanguages.contains source)
        = true := by
      rw [bne_iff_ne.mpr hs, hc]
      rfl
    rw [ReversoTranslator.init, ReversoTranslator.validate_language, if_pos hcond]
  · intro hsok ht hc
    have hvs : ReversoTranslator.validate_language source = .ok () := by
      rcases hsok with rfl | hcs
      · rw [ReversoTranslator.validate_language, if_neg (by simp)]
      · rw [ReversoTranslator.validate_language, if_neg (by rw [hcs]; simp)]
    have hcond : ((target != "auto") && !reversoSupportedLanguages.contains target)
        = true := by
      rw [bne_iff_ne.mpr ht, hc]
      rfl
    rw [ReversoTranslator.init, hvs, ReversoTranslator.validate_language,
      if_pos hcond]

/-- C8 witness: "xx" as source and "klingon" as target are both rejected at
construction with LanguageNotSupportedException. -/
theorem C8_eager_allowlist_validation_witness :
    ReversoTranslator.init "xx" "en"
      = .error (.LanguageNotSupportedException "xx")
    ∧ ReversoTranslator.init "en" "klingon"
      = .error (.LanguageNotSupportedException "klingon") :=
  ⟨(C8_eager_allowlist_validation "xx" "en").1 (by decide) (by decide),
   (C8_eager_allowlist_validation "en" "klingon").2 (Or.inr (by decide))
     (by decide) (by decide)⟩

end DeepTranslator
